import Mathlib

/-!
# prettier-config-dheerajmahra: the setup command `bin/cli.js`

A shallow embedding of the command-line workflow of `src/bin/cli.js`:
package-manager detection, the `package.json` precondition, the two install
steps, and the three file materializers, over an explicit model of the
working directory.

Modelling conventions.

* A JavaScript string is a sequence of UTF-16 code units (`JsString`).  Paths,
  file contents, shell commands and the environment signal are well-formed
  text and are carried as `String`; `js` gives their code units.
* The file system is a tree of directories and regular files.  Every node has
  a write permission: a file that is not writable cannot be rewritten, a
  directory that is not writable accepts no new entry.  Symbolic links, read
  permissions and concurrent writers are not modelled.
* `JSON.parse`, `JSON.stringify` and `child_process.execSync` belong to the
  runtime and are taken as parameters (`Runtime`).
* Console output is not modelled.
-/

namespace PrettierConfig

/-! ## JavaScript strings -/

/-- A JavaScript string: its UTF-16 code units. -/
abbrev JsString := List Nat

/-- UTF-16 encoding of one code point. -/
def utf16 (c : Char) : List Nat :=
  if c.toNat < 0x10000 then [c.toNat]
  else [0xD800 + (c.toNat - 0x10000) / 0x400, 0xDC00 + (c.toNat - 0x10000) % 0x400]

/-- The JavaScript string denoted by a text. -/
def js (s : String) : JsString :=
  s.toList.flatMap utf16

/-- The method `String.prototype.includes` on code units: `pat` occurs in `s` at some
position. -/
def includesUnits : JsString → JsString → Bool
  | [], pat => pat.isPrefixOf []
  | c :: cs, pat => pat.isPrefixOf (c :: cs) || includesUnits cs pat

/-- The call `s.includes(pat)` for two texts. -/
def includes (s pat : String) : Bool :=
  includesUnits (js s) (js pat)

/-! ## The file system -/

/-- An absolute, normalized path: its components from the root. -/
abbrev Path := List String

/-- A node of the file-system tree. -/
inductive Node where
  | file (writable : Bool) (content : String)
  | dir (writable : Bool) (entries : String → Option Node)

/-- The file system: its root node. -/
abbrev FS := Node

/-- The exceptions the program can meet. -/
inductive JsError where
  | ioError (code : String)
  | syntaxError
  | typeError
deriving DecidableEq, Repr

/-- The call `path.join(base, ...segs)` for a normalized base and single-component
segments. -/
def pathJoin (base : Path) (segs : List String) : Path :=
  segs.foldl
    (fun p s => if s = ".." then p.dropLast else if s = "." ∨ s = "" then p else p ++ [s])
    base

/-- The node at a path, if any. -/
def lookup : Node → Path → Option Node
  | n, [] => some n
  | .file _ _, _ :: _ => none
  | .dir _ es, x :: xs =>
    match es x with
    | some c => lookup c xs
    | none => none

/-- The call `fs.existsSync(p)`: it never throws. -/
def existsSync (fs : FS) (p : Path) : Bool :=
  (lookup fs p).isSome

/-- The call `fs.readFileSync(p, "utf8")`. -/
def readFileSync (fs : FS) (p : Path) : Except JsError String :=
  match lookup fs p with
  | some (.file _ c) => .ok c
  | some (.dir _ _) => .error (.ioError "EISDIR")
  | none => .error (.ioError "ENOENT")

/-- Directory entries with the entry `x` set to `n`. -/
def setEntry (es : String → Option Node) (x : String) (n : Node) : String → Option Node :=
  fun y => if y = x then some n else es y

/-- The call `fs.writeFileSync(p, s, "utf8")`: rewrites a writable file or creates a new file
in a writable directory; a failed write leaves the tree as it was. -/
def writeFileSync : Node → Path → String → Except JsError Node
  | .file w _, [], s => if w then .ok (.file w s) else .error (.ioError "EACCES")
  | .dir _ _, [], _ => .error (.ioError "EISDIR")
  | .file _ _, _ :: _, _ => .error (.ioError "ENOTDIR")
  | .dir w es, x :: xs, s =>
    match es x with
    | some c =>
      match writeFileSync c xs s with
      | .ok c' => .ok (.dir w (setEntry es x c'))
      | .error e => .error e
    | none =>
      match xs with
      | [] =>
        if w then .ok (.dir w (setEntry es x (.file true s)))
        else .error (.ioError "EACCES")
      | _ :: _ => .error (.ioError "ENOENT")

/-- The call `fs.mkdirSync(p, { recursive: true })`: creates the missing directories of `p`. -/
def mkdirSync : Node → Path → Except JsError Node
  | .dir w es, [] => .ok (.dir w es)
  | .file _ _, [] => .error (.ioError "EEXIST")
  | .file _ _, _ :: _ => .error (.ioError "ENOTDIR")
  | .dir w es, x :: xs =>
    match es x with
    | some c =>
      match mkdirSync c xs with
      | .ok c' => .ok (.dir w (setEntry es x c'))
      | .error e => .error e
    | none =>
      if w then
        match mkdirSync (.dir true (fun _ => none)) xs with
        | .ok c' => .ok (.dir w (setEntry es x c'))
        | .error e => .error e
      else .error (.ioError "EACCES")

/-! ## The process environment -/

/-- What the process reads from its environment. -/
structure Env where
  /-- The variable `process.env.npm_config_user_agent`; `none` when unset. -/
  userAgent : Option String
  /-- The directory `process.cwd()`. -/
  cwd : Path
  /-- The directory `__dirname` of `bin/cli.js`. -/
  dirname : Path

/-- The function `detectPackageManager` of `bin/cli.js`. -/
def detectPackageManager (env : Env) (fs : FS) : String :=
  let fromLockFiles : String :=
    if existsSync fs (pathJoin env.cwd ["pnpm-lock.yaml"]) then "pnpm"
    else if existsSync fs (pathJoin env.cwd ["yarn.lock"]) then "yarn"
    else if existsSync fs (pathJoin env.cwd ["package-lock.json"]) then "npm"
    else "npm"
  match env.userAgent with
  | none => fromLockFiles
  | some userAgent =>
    if userAgent ≠ "" then
      if includes userAgent "pnpm" then "pnpm"
      else if includes userAgent "yarn" then "yarn"
      else if includes userAgent "npm" then "npm"
      else fromLockFiles
    else fromLockFiles

/-! ## JSON values and ordinary objects -/

/-- A value produced by `JSON.parse`.  A number is kept as the bit pattern of its
IEEE-754 double; an object as its own properties in property order. -/
inductive Json where
  | null
  | bool (b : Bool)
  | num (bits : Nat)
  | str (s : JsString)
  | arr (elems : List Json)
  | obj (props : List (JsString × Json))

/-- The own properties of an ordinary object, in property order. -/
abbrev Props := List (JsString × Json)

/-- The value of the own property `k`, if there is one. -/
def getOwn : Props → JsString → Option Json
  | [], _ => none
  | (k', v) :: rest, k => if k' = k then some v else getOwn rest k

/-- The array index a property key denotes: a canonical decimal numeral below `2^32 - 1`. -/
def arrayIndex (k : JsString) : Option Nat :=
  if k ≠ [] ∧ k.all (fun u => decide (48 ≤ u ∧ u ≤ 57)) = true ∧ (k.head? ≠ some 48 ∨ k.length = 1) then
    let n := k.foldl (fun a u => 10 * a + (u - 48)) 0
    if n < 2 ^ 32 - 1 then some n else none
  else none

/-- A new property with array index `i` takes its place among the index keys, which
come first in ascending order. -/
def insertIndexed (i : Nat) (k : JsString) (v : Json) : Props → Props
  | [] => [(k, v)]
  | e :: rest =>
    match arrayIndex e.1 with
    | some j => if j < i then e :: insertIndexed i k v rest else (k, v) :: e :: rest
    | none => (k, v) :: e :: rest

/-- The operation `CreateDataProperty(o, k, v)`: an existing property keeps its place and takes the
new value; a new index key is placed among the index keys; any other new key goes last. -/
def setProp (o : Props) (k : JsString) (v : Json) : Props :=
  if (getOwn o k).isSome then o.map (fun e => if e.1 = k then (e.1, v) else e)
  else
    match arrayIndex k with
    | some i => insertIndexed i k v o
    | none => o ++ [(k, v)]

/-- The decimal numeral of `n` as a JavaScript string. -/
def indexKey (n : Nat) : JsString :=
  js (toString n)

/-- The own enumerable string-keyed properties of a spread operand (`none` is
`undefined`): those of an object, the elements of an array, the code units of a string,
nothing for `undefined`, `null`, a boolean or a number. -/
def ownProps : Option Json → Props
  | some (.obj props) => props
  | some (.arr elems) => elems.enum.map (fun e => (indexKey e.1, e.2))
  | some (.str s) => s.enum.map (fun e => (indexKey e.1, Json.str [e.2]))
  | _ => []

/-- The operation `CopyDataProperties(target, source)`, the meaning of `...source` in an object
literal: every own enumerable key of the source, in order, is read from the source and
defined on the target. -/
def copyDataProperties (target : Props) (source : Option Json) : Props :=
  let src := ownProps source
  (src.map Prod.fst).foldl
    (fun t k =>
      match getOwn src k with
      | some v => setProp t k v
      | none => t)
    target

/-- The object literal `{ ...a, ...b }`. -/
def spread2 (a b : Option Json) : Props :=
  copyDataProperties (copyDataProperties [] a) b

/-- The property access `v.k` for a key `k` that no built-in prototype defines (such as
`dependencies`): a `TypeError` on `null`, the own property of an object, `undefined`
(`none`) otherwise. -/
def getMember (v : Json) (k : JsString) : Except JsError (Option Json) :=
  match v with
  | .null => .error .typeError
  | .obj props => .ok (getOwn props k)
  | _ => .ok none

/-- The call `o.hasOwnProperty(k)` on an ordinary object: the method is looked up on
the object first, so an own property named `hasOwnProperty` (a JSON value, not callable)
makes the call a `TypeError`; otherwise `Object.prototype.hasOwnProperty` answers. -/
def callHasOwnProperty (o : Props) (k : JsString) : Except JsError Bool :=
  match getOwn o (js "hasOwnProperty") with
  | some _ => .error .typeError
  | none => .ok (getOwn o k).isSome

/-! ## The runtime and the workflow -/

/-- The runtime services the program calls. -/
structure Runtime where
  /-- The function `JSON.parse`. -/
  jsonParse : String → Except JsError Json
  /-- The function `JSON.stringify(v, null, 2)`. -/
  jsonStringify : Json → String
  /-- The call `execSync(command, { stdio: "inherit" })`: whether the command succeeded
  (no exception), and the file system it leaves. -/
  execSync : String → FS → Bool × FS

/-- The state the workflow acts on: the file system and the commands run so far. -/
structure World where
  fs : FS
  commands : List String

/-- The function `createPrettierrc` of `bin/cli.js`. -/
def createPrettierrc (env : Env) (fs : FS) : Except JsError (Bool × FS) :=
  let prettierrcPath := pathJoin env.cwd [".prettierrc"]
  if existsSync fs prettierrcPath then .ok (false, fs)
  else
    let prettierrcContent := "\"@dheerajmahra/prettier-config\""
    match writeFileSync fs prettierrcPath prettierrcContent with
    | .error e => .error e
    | .ok fs1 => .ok (true, fs1)

/-- The function `createPrettierignore` of `bin/cli.js`. -/
def createPrettierignore (env : Env) (fs : FS) : Except JsError (Bool × FS) :=
  let prettierignorePath := pathJoin env.cwd [".prettierignore"]
  if existsSync fs prettierignorePath then .ok (false, fs)
  else
    let templatePath := pathJoin env.dirname ["..", "templates", ".prettierignore"]
    match readFileSync fs templatePath with
    | .error _ => .ok (false, fs)
    | .ok prettierignoreContent =>
      match writeFileSync fs prettierignorePath prettierignoreContent with
      | .error _ => .ok (false, fs)
      | .ok fs1 => .ok (true, fs1)

/-- The function `createVSCodeSettings` of `bin/cli.js`. -/
def createVSCodeSettings (rt : Runtime) (env : Env) (fs : FS) : Except JsError (Bool × FS) :=
  let vscodeDirPath := pathJoin env.cwd [".vscode"]
  let settingsPath := pathJoin vscodeDirPath ["settings.json"]
  let templatePath := pathJoin env.dirname ["..", "templates", "settings.json"]
  match (if !existsSync fs vscodeDirPath then mkdirSync fs vscodeDirPath else .ok fs) with
  | .error e => .error e
  | .ok fs1 =>
    if existsSync fs1 settingsPath then
      match readFileSync fs1 settingsPath with
      | .error _ => .ok (false, fs1)
      | .ok existingText =>
        match rt.jsonParse existingText with
        | .error _ => .ok (false, fs1)
        | .ok existingSettings =>
          match readFileSync fs1 templatePath with
          | .error _ => .ok (false, fs1)
          | .ok templateText =>
            match rt.jsonParse templateText with
            | .error _ => .ok (false, fs1)
            | .ok newSettings =>
              let mergedSettings := Json.obj (spread2 (some existingSettings) (some newSettings))
              match writeFileSync fs1 settingsPath (rt.jsonStringify mergedSettings) with
              | .error _ => .ok (false, fs1)
              | .ok fs2 => .ok (true, fs2)
    else
      match readFileSync fs1 templatePath with
      | .error _ => .ok (false, fs1)
      | .ok settingsContent =>
        match writeFileSync fs1 settingsPath settingsContent with
        | .error _ => .ok (false, fs1)
        | .ok fs2 => .ok (true, fs2)

/-- The shared config package. -/
def packageName : String := "@dheerajmahra/prettier-config"

/-- The `switch` of `installPackage`: the command for a manager. -/
def installPackageCommand (packageManager : String) : String :=
  if packageManager = "pnpm" then "pnpm add -D " ++ packageName
  else if packageManager = "yarn" then "yarn add -D " ++ packageName
  else "npm install --save-dev " ++ packageName

/-- The function `installPackage` of `bin/cli.js`. -/
def installPackage (rt : Runtime) (packageManager : String) (w : World) : Bool × World :=
  let command := installPackageCommand packageManager
  let r := rt.execSync command w.fs
  (r.1, { fs := r.2, commands := w.commands ++ [command] })

/-- The function `checkPackageJson` of `bin/cli.js`: the status the process exits with,
or `none` when the check passes. -/
def checkPackageJson (env : Env) (fs : FS) : Option Nat :=
  let packageJsonPath := pathJoin env.cwd ["package.json"]
  if !existsSync fs packageJsonPath then some 1 else none

/-- The function `isPrettierInstalled` of `bin/cli.js`. -/
def isPrettierInstalled (rt : Runtime) (env : Env) (fs : FS) : Bool :=
  let packageJsonPath := pathJoin env.cwd ["package.json"]
  match readFileSync fs packageJsonPath with
  | .error _ => false
  | .ok text =>
    match rt.jsonParse text with
    | .error _ => false
    | .ok packageJson =>
      match getMember packageJson (js "dependencies") with
      | .error _ => false
      | .ok dependencies =>
        match getMember packageJson (js "devDependencies") with
        | .error _ => false
        | .ok devDependencies =>
          let allDeps := spread2 dependencies devDependencies
          match callHasOwnProperty allDeps (js "prettier") with
          | .error _ => false
          | .ok b => b

/-- The `switch` of `installPrettier`: the command for a manager. -/
def installPrettierCommand (packageManager : String) : String :=
  if packageManager = "pnpm" then "pnpm add --save-dev --save-exact prettier"
  else if packageManager = "yarn" then "yarn add --dev --exact prettier"
  else "npm install --save-dev --save-exact prettier"

/-- The function `installPrettier` of `bin/cli.js`. -/
def installPrettier (rt : Runtime) (packageManager : String) (w : World) : Bool × World :=
  let command := installPrettierCommand packageManager
  let r := rt.execSync command w.fs
  (r.1, { fs := r.2, commands := w.commands ++ [command] })

/-- How a run of `main` ends. -/
inductive Outcome where
  | completed
  | exited (code : Nat)
  | threw (e : JsError)
deriving DecidableEq, Repr

/-- The state after step 1 of `main`: prettier is installed when it is not declared. -/
def prettierStep (rt : Runtime) (env : Env) (fs : FS) : World :=
  let w0 : World := { fs := fs, commands := [] }
  if !isPrettierInstalled rt env fs then
    (installPrettier rt (detectPackageManager env fs) w0).2
  else w0

/-- The function `main` of `bin/cli.js`. -/
def main (rt : Runtime) (env : Env) (fs : FS) : Outcome × World :=
  match checkPackageJson env fs with
  | some code => (.exited code, { fs := fs, commands := [] })
  | none =>
    let packageManager := detectPackageManager env fs
    let w1 := prettierStep rt env fs
    let r := installPackage rt packageManager w1
    if !r.1 then (.exited 1, r.2)
    else
      match createPrettierrc env r.2.fs with
      | .error e => (.threw e, r.2)
      | .ok r3 =>
        match createPrettierignore env r3.2 with
        | .error e => (.threw e, { fs := r3.2, commands := r.2.commands })
        | .ok r4 =>
          match createVSCodeSettings rt env r4.2 with
          | .error e => (.threw e, { fs := r4.2, commands := r.2.commands })
          | .ok r5 => (.completed, { fs := r5.2, commands := r.2.commands })

/-- The status the process exits with: `main().catch(...)` turns a rejection into
`process.exit(1)`; a completed run ends with status 0. -/
def exitStatus : Outcome → Nat
  | .completed => 0
  | .exited code => code
  | .threw _ => 1

/-- The whole program: the exit status and the final state. -/
def run (rt : Runtime) (env : Env) (fs : FS) : Nat × World :=
  let r := main rt env fs
  (exitStatus r.1, r.2)

/-! ## Concrete states for worked runs -/

/-- A directory node with the listed entries. -/
def mkDir (writable : Bool) (entries : List (String × Node)) : Node :=
  .dir writable (fun x => (entries.find? (fun e => e.1 = x)).map (fun e => e.2))

/-- An installed copy of the package: `bin/cli.js` and the two templates. -/
def samplePackage : Node :=
  mkDir true
    [("bin", mkDir true [("cli.js", .file true "")]),
     ("templates", mkDir true
        [(".prettierignore", .file true "node_modules\ndist\n"),
         ("settings.json", .file true "\x7b\"editor.formatOnSave\":true\x7d")])]

/-- The process is started in `/proj`; the package lives in `/pkg`. -/
def sampleEnv (userAgent : Option String) : Env :=
  { userAgent := userAgent, cwd := ["proj"], dirname := ["pkg", "bin"] }

/-- A file system whose project directory has the given permission and entries. -/
def sampleFS (writable : Bool) (project : List (String × Node)) : FS :=
  mkDir true [("proj", mkDir writable project), ("pkg", samplePackage)]

/-- The text of an ASCII JavaScript string. -/
def sampleText (s : JsString) : String :=
  String.mk (s.map Char.ofNat)

/-- A boolean or a plain ASCII string as `JSON.stringify` prints it. -/
def sampleScalar : Json → String
  | .bool true => "true"
  | .bool false => "false"
  | .str s => "\"" ++ sampleText s ++ "\""
  | _ => "null"

/-- The function `JSON.stringify(v, null, 2)` on the values of the worked runs: flat
objects of booleans and plain ASCII strings. -/
def sampleStringify : Json → String
  | .obj [] => "\x7b\x7d"
  | .obj props =>
    "\x7b\n"
      ++ ",\n".intercalate
          (props.map (fun e => "  \"" ++ sampleText e.1 ++ "\": " ++ sampleScalar e.2))
      ++ "\n\x7d"
  | v => sampleScalar v

/-- The function `JSON.parse` on the texts of the worked runs; any other text is taken
as malformed. -/
def sampleParse (text : String) : Except JsError Json :=
  if text = "\x7b\x7d" then .ok (.obj [])
  else if text = "\x7b\"editor.formatOnSave\":true\x7d" then
    .ok (.obj [(js "editor.formatOnSave", .bool true)])
  else if text = "\x7b\"files.autoSave\":\"off\",\"editor.formatOnSave\":false\x7d" then
    .ok (.obj [(js "files.autoSave", .str (js "off")), (js "editor.formatOnSave", .bool false)])
  else if text
      = "\x7b\"dependencies\":\x7b\"hasOwnProperty\":\"1.0.0\",\"prettier\":\"3.3.3\"\x7d\x7d" then
    .ok (.obj [(js "dependencies",
      .obj [(js "hasOwnProperty", .str (js "1.0.0")), (js "prettier", .str (js "3.3.3"))])])
  else if text = "\x7b\"devDependencies\":\x7b\"prettier\":\"3.3.3\"\x7d\x7d" then
    .ok (.obj [(js "devDependencies", .obj [(js "prettier", .str (js "3.3.3"))])])
  else .error .syntaxError

/-- A runtime for the worked runs, with the given behaviour of the install commands. -/
def sampleRuntime (execSync : String → FS → Bool × FS) : Runtime :=
  { jsonParse := sampleParse, jsonStringify := sampleStringify, execSync := execSync }

/-- Install commands that succeed and leave the file system as it is. -/
def installsSucceed : String → FS → Bool × FS :=
  fun _ fs => (true, fs)

/-- Install commands that fail and leave the file system as it is. -/
def installsFail : String → FS → Bool × FS :=
  fun _ fs => (false, fs)

/-- Install commands that succeed and append the command line to `/proj/install.log`;
a command fails when the log cannot be written. -/
def installsLogged : String → FS → Bool × FS :=
  fun command fs =>
    let old : String :=
      match readFileSync fs ["proj", "install.log"] with
      | .ok t => t
      | .error _ => ""
    match writeFileSync fs ["proj", "install.log"] (old ++ command ++ "\n") with
    | .ok fs1 => (true, fs1)
    | .error _ => (false, fs)

/-! ## Facts about the file system -/

theorem pathJoin_prettierrc (base : Path) :
    pathJoin base [".prettierrc"] = base ++ [".prettierrc"] := by
  simp [pathJoin]

theorem pathJoin_prettierignore (base : Path) :
    pathJoin base [".prettierignore"] = base ++ [".prettierignore"] := by
  simp [pathJoin]

theorem pathJoin_packageJson (base : Path) :
    pathJoin base ["package.json"] = base ++ ["package.json"] := by
  simp [pathJoin]

theorem pathJoin_vscode (base : Path) :
    pathJoin base [".vscode"] = base ++ [".vscode"] := by
  simp [pathJoin]

theorem pathJoin_template (base : Path) (name : String)
    (h1 : name ≠ "..") (h2 : name ≠ ".") (h3 : name ≠ "") :
    pathJoin base ["..", "templates", name] = base.dropLast ++ ["templates", name] := by
  simp [pathJoin, h1, h2, h3]

theorem lookup_append (p q : Path) : ∀ n : Node,
    lookup n (p ++ q) = (match lookup n p with
      | some m => lookup m q
      | none => none) := by
  induction p with
  | nil => intro n; simp [lookup]
  | cons x xs ih =>
    intro n
    cases n with
    | file w c => simp [lookup]
    | dir w es =>
      simp only [List.cons_append, lookup]
      cases es x with
      | none => simp
      | some c => simpa using ih c

theorem existsSync_parent (fs : FS) (p q : Path) (h : existsSync fs (p ++ q) = true) :
    existsSync fs p = true := by
  unfold existsSync at *
  rw [lookup_append] at h
  cases hp : lookup fs p with
  | none => rw [hp] at h; simp at h
  | some m => simp

theorem lookup_writeFileSync (s : String) (p : Path) : ∀ n n1 : Node,
    writeFileSync n p s = .ok n1 → ∃ w, lookup n1 p = some (.file w s) := by
  induction p with
  | nil =>
    intro n n1 h
    cases n with
    | file w c =>
      cases w <;> simp [writeFileSync] at h
      subst h
      exact ⟨true, rfl⟩
    | dir w es => simp [writeFileSync] at h
  | cons x xs ih =>
    intro n n1 h
    cases n with
    | file w c => simp [writeFileSync] at h
    | dir w es =>
      simp only [writeFileSync] at h
      cases hx : es x with
      | some c =>
        simp only [hx] at h
        cases hc : writeFileSync c xs s with
        | error e => simp [hc] at h
        | ok c1 =>
          simp [hc] at h
          subst h
          obtain ⟨w1, hw1⟩ := ih c c1 hc
          exact ⟨w1, by simp [lookup, setEntry, hw1]⟩
      | none =>
        simp only [hx] at h
        cases xs with
        | nil =>
          cases w <;> simp at h
          subst h
          exact ⟨true, by simp [lookup, setEntry]⟩
        | cons y ys => simp at h

theorem writeFileSync_writable (s : String) (p : Path) : ∀ (n : Node) (c : String),
    lookup n p = some (.file true c) →
    ∃ n1, writeFileSync n p s = .ok n1 ∧ lookup n1 p = some (.file true s) := by
  induction p with
  | nil =>
    intro n c h
    simp [lookup] at h
    subst h
    exact ⟨.file true s, by simp [writeFileSync], rfl⟩
  | cons x xs ih =>
    intro n c h
    cases n with
    | file w c0 => simp [lookup] at h
    | dir w es =>
      simp only [lookup] at h
      cases hx : es x with
      | none => rw [hx] at h; simp at h
      | some m =>
        rw [hx] at h
        obtain ⟨m1, hm1, hl⟩ := ih m c h
        exact ⟨.dir w (setEntry es x m1), by simp [writeFileSync, hx, hm1],
          by simp [lookup, setEntry, hl]⟩

theorem existsSync_writeFileSync (fs fs1 : FS) (p : Path) (s : String)
    (h : writeFileSync fs p s = .ok fs1) : existsSync fs1 p = true := by
  obtain ⟨w, hw⟩ := lookup_writeFileSync s p fs fs1 h
  simp [existsSync, hw]

theorem readFileSync_writeFileSync (fs fs1 : FS) (p : Path) (s : String)
    (h : writeFileSync fs p s = .ok fs1) : readFileSync fs1 p = .ok s := by
  obtain ⟨w, hw⟩ := lookup_writeFileSync s p fs fs1 h
  simp [readFileSync, hw]

/-! ## Package-manager detection -/

theorem includes_empty_signal :
    includes "" "npm" = false ∧ includes "" "yarn" = false ∧ includes "" "pnpm" = false := by
  decide

/-- C1: when the environment signal contains the name of a supported manager, the
result of `detectPackageManager` is one of the three managers, its name occurs in the
signal, and it is the same for any two file systems (and working directories): the
signal wins over the lock files. -/
theorem detectPackageManager_signal_wins (ua : String) (cwd1 cwd2 dir1 dir2 : Path)
    (fs1 fs2 : FS)
    (h : includes ua "npm" = true ∨ includes ua "yarn" = true ∨ includes ua "pnpm" = true) :
    (detectPackageManager ⟨some ua, cwd1, dir1⟩ fs1 = "npm"
      ∨ detectPackageManager ⟨some ua, cwd1, dir1⟩ fs1 = "yarn"
      ∨ detectPackageManager ⟨some ua, cwd1, dir1⟩ fs1 = "pnpm")
    ∧ includes ua (detectPackageManager ⟨some ua, cwd1, dir1⟩ fs1) = true
    ∧ detectPackageManager ⟨some ua, cwd2, dir2⟩ fs2
        = detectPackageManager ⟨some ua, cwd1, dir1⟩ fs1 := by
  have hne : ua ≠ "" := by
    rintro rfl
    have := includes_empty_signal
    simp_all
  cases h1 : includes ua "pnpm" <;> cases h2 : includes ua "yarn" <;>
    cases h3 : includes ua "npm" <;> simp_all [detectPackageManager]

theorem detectPackageManager_signal_wins_witness :
    (includes "yarn/1.22.19 npm/? node/v18.17.0 linux x64" "yarn" = true)
    ∧ detectPackageManager (sampleEnv (some "yarn/1.22.19 npm/? node/v18.17.0 linux x64"))
        (sampleFS true [("pnpm-lock.yaml", .file true "")])
      = detectPackageManager (sampleEnv (some "yarn/1.22.19 npm/? node/v18.17.0 linux x64"))
        (sampleFS true []) :=
  ⟨by decide,
   (detectPackageManager_signal_wins "yarn/1.22.19 npm/? node/v18.17.0 linux x64"
      ["proj"] ["proj"] ["pkg", "bin"] ["pkg", "bin"]
      (sampleFS true []) (sampleFS true [("pnpm-lock.yaml", .file true "")])
      (Or.inr (Or.inl (by decide)))).2.2⟩

/-- C2, as stated, fails: the signal set by pnpm contains `npm` as a substring, and
`detectPackageManager` returns `pnpm`, not `npm`. -/
theorem detectPackageManager_substring_counterexample :
    includes "pnpm/9.0.0 npm/? node/v20.11.0 linux x64" "npm" = true
    ∧ detectPackageManager (sampleEnv (some "pnpm/9.0.0 npm/? node/v20.11.0 linux x64"))
        (sampleFS true []) = "pnpm"
    ∧ detectPackageManager (sampleEnv (some "pnpm/9.0.0 npm/? node/v20.11.0 linux x64"))
        (sampleFS true []) ≠ "npm" := by
  decide

/-- C2, amended: the names are tried in the order pnpm, yarn, npm.  A signal that
contains `pnpm` gives `pnpm`; one that contains `yarn` and not `pnpm` gives `yarn`; one
that contains `npm` and neither `pnpm` nor `yarn` gives `npm`. -/
theorem detectPackageManager_signal_order (ua : String) (cwd dir : Path) (fs : FS) :
    (includes ua "pnpm" = true → detectPackageManager ⟨some ua, cwd, dir⟩ fs = "pnpm")
    ∧ (includes ua "yarn" = true → includes ua "pnpm" = false →
        detectPackageManager ⟨some ua, cwd, dir⟩ fs = "yarn")
    ∧ (includes ua "npm" = true → includes ua "pnpm" = false → includes ua "yarn" = false →
        detectPackageManager ⟨some ua, cwd, dir⟩ fs = "npm") := by
  have hne : (includes ua "npm" = true ∨ includes ua "yarn" = true
      ∨ includes ua "pnpm" = true) → ua ≠ "" := by
    rintro h rfl
    have := includes_empty_signal
    simp_all
  refine ⟨fun h => ?_, fun h h1 => ?_, fun h h1 h2 => ?_⟩
  · have := hne (Or.inr (Or.inr h))
    simp_all [detectPackageManager]
  · have := hne (Or.inr (Or.inl h))
    simp_all [detectPackageManager]
  · have := hne (Or.inl h)
    simp_all [detectPackageManager]

theorem detectPackageManager_signal_order_witness :
    detectPackageManager ⟨some "npm/10.2.4 node/v20.11.0 linux x64 workspaces/false",
        ["proj"], ["pkg", "bin"]⟩ (sampleFS true [("yarn.lock", .file true "")]) = "npm" :=
  (detectPackageManager_signal_order "npm/10.2.4 node/v20.11.0 linux x64 workspaces/false"
      ["proj"] ["pkg", "bin"] (sampleFS true [("yarn.lock", .file true "")])).2.2
    (by decide) (by decide) (by decide)

/-- C3: when the environment signal is unset, empty, or names no supported manager,
`detectPackageManager` is decided by the lock files in the order pnpm, yarn, npm, with
`npm` as the default; the result is one of the three managers. -/
theorem detectPackageManager_lock_files (env : Env) (fs : FS)
    (h : env.userAgent = none ∨ env.userAgent = some ""
      ∨ ∃ ua, env.userAgent = some ua ∧ includes ua "npm" = false
          ∧ includes ua "yarn" = false ∧ includes ua "pnpm" = false) :
    detectPackageManager env fs
      = (if existsSync fs (env.cwd ++ ["pnpm-lock.yaml"]) = true then "pnpm"
         else if existsSync fs (env.cwd ++ ["yarn.lock"]) = true then "yarn"
         else "npm")
    ∧ (detectPackageManager env fs = "npm" ∨ detectPackageManager env fs = "yarn"
        ∨ detectPackageManager env fs = "pnpm") := by
  have hp : pathJoin env.cwd ["pnpm-lock.yaml"] = env.cwd ++ ["pnpm-lock.yaml"] := by
    simp [pathJoin]
  have hy : pathJoin env.cwd ["yarn.lock"] = env.cwd ++ ["yarn.lock"] := by
    simp [pathJoin]
  have key : detectPackageManager env fs
      = (if existsSync fs (env.cwd ++ ["pnpm-lock.yaml"]) = true then "pnpm"
         else if existsSync fs (env.cwd ++ ["yarn.lock"]) = true then "yarn"
         else "npm") := by
    rcases h with h | h | ⟨ua, h, h1, h2, h3⟩
    · simp [detectPackageManager, h, hp, hy]
    · simp [detectPackageManager, h, hp, hy]
    · simp [detectPackageManager, h, h1, h2, h3, hp, hy]
  refine ⟨key, ?_⟩
  rw [key]
  split_ifs <;> simp

theorem detectPackageManager_lock_files_witness :
    detectPackageManager (sampleEnv none)
        (sampleFS true [("pnpm-lock.yaml", .file true ""), ("yarn.lock", .file true ""),
          ("package-lock.json", .file true "")]) = "pnpm" :=
  ((detectPackageManager_lock_files (sampleEnv none)
      (sampleFS true [("pnpm-lock.yaml", .file true ""), ("yarn.lock", .file true ""),
        ("package-lock.json", .file true "")]) (Or.inl rfl)).1).trans (by decide)

/-! ## The config pointer and the ignore file -/

theorem createPrettierrc_true (env : Env) (fs fs1 : FS)
    (h : createPrettierrc env fs = .ok (true, fs1)) :
    writeFileSync fs (env.cwd ++ [".prettierrc"]) "\"@dheerajmahra/prettier-config\""
      = .ok fs1 := by
  simp only [createPrettierrc, pathJoin_prettierrc] at h
  split at h
  · simp at h
  · split at h
    · simp at h
    · next fs2 hw =>
      simp at h
      rw [hw, h]

theorem createPrettierignore_true (env : Env) (fs fs1 : FS)
    (h : createPrettierignore env fs = .ok (true, fs1)) :
    ∃ t, readFileSync fs (env.dirname.dropLast ++ ["templates", ".prettierignore"]) = .ok t
      ∧ writeFileSync fs (env.cwd ++ [".prettierignore"]) t = .ok fs1 := by
  simp only [createPrettierignore, pathJoin_prettierignore,
    pathJoin_template env.dirname ".prettierignore" (by decide) (by decide) (by decide)] at h
  split at h
  · simp at h
  · split at h
    · simp at h
    · next t ht =>
      split at h
      · simp at h
      · next fs2 hw =>
        simp at h
        exact ⟨t, ht, by rw [hw, h]⟩

/-- C4: `createPrettierrc` and `createPrettierignore` never overwrite.  When the file
already exists (whatever it holds) the operation returns false and the file system is
unchanged; and after a first run that succeeds, a second run returns false and changes
nothing, so the file still holds what the first run wrote: the quoted package name for
`.prettierrc`, the template's text for `.prettierignore`. -/
theorem create_never_overwrites (env : Env) (fs : FS) :
    (existsSync fs (env.cwd ++ [".prettierrc"]) = true →
      createPrettierrc env fs = .ok (false, fs))
    ∧ (existsSync fs (env.cwd ++ [".prettierignore"]) = true →
      createPrettierignore env fs = .ok (false, fs))
    ∧ (∀ fs1, createPrettierrc env fs = .ok (true, fs1) →
      createPrettierrc env fs1 = .ok (false, fs1)
      ∧ readFileSync fs1 (env.cwd ++ [".prettierrc"])
          = .ok "\"@dheerajmahra/prettier-config\"")
    ∧ (∀ fs1, createPrettierignore env fs = .ok (true, fs1) →
      createPrettierignore env fs1 = .ok (false, fs1)
      ∧ ∃ t, readFileSync fs (env.dirname.dropLast ++ ["templates", ".prettierignore"]) = .ok t
          ∧ readFileSync fs1 (env.cwd ++ [".prettierignore"]) = .ok t) := by
  have skip1 : ∀ g : FS, existsSync g (env.cwd ++ [".prettierrc"]) = true →
      createPrettierrc env g = .ok (false, g) := by
    intro g hg
    simp [createPrettierrc, pathJoin_prettierrc, hg]
  have skip2 : ∀ g : FS, existsSync g (env.cwd ++ [".prettierignore"]) = true →
      createPrettierignore env g = .ok (false, g) := by
    intro g hg
    simp [createPrettierignore, pathJoin_prettierignore, hg]
  refine ⟨skip1 fs, skip2 fs, fun fs1 h => ?_, fun fs1 h => ?_⟩
  · have hw := createPrettierrc_true env fs fs1 h
    exact ⟨skip1 fs1 (existsSync_writeFileSync _ _ _ _ hw),
      readFileSync_writeFileSync _ _ _ _ hw⟩
  · obtain ⟨t, ht, hw⟩ := createPrettierignore_true env fs fs1 h
    exact ⟨skip2 fs1 (existsSync_writeFileSync _ _ _ _ hw), t, ht,
      readFileSync_writeFileSync _ _ _ _ hw⟩

theorem create_never_overwrites_witness :
    (existsSync (sampleFS true [(".prettierrc", .file true "\x7b\x7d")]) ["proj", ".prettierrc"] = true
      ∧ createPrettierrc (sampleEnv none) (sampleFS true [(".prettierrc", .file true "\x7b\x7d")])
          = .ok (false, sampleFS true [(".prettierrc", .file true "\x7b\x7d")]))
    ∧ (∃ fs1, createPrettierrc (sampleEnv none) (sampleFS true []) = .ok (true, fs1)
      ∧ createPrettierrc (sampleEnv none) fs1 = .ok (false, fs1)
      ∧ readFileSync fs1 ["proj", ".prettierrc"] = .ok "\"@dheerajmahra/prettier-config\"")
    ∧ (∃ fs1, createPrettierignore (sampleEnv none) (sampleFS true []) = .ok (true, fs1)
      ∧ createPrettierignore (sampleEnv none) fs1 = .ok (false, fs1)
      ∧ readFileSync fs1 ["proj", ".prettierignore"] = .ok "node_modules\ndist\n") :=
  ⟨⟨by decide,
    (create_never_overwrites (sampleEnv none)
      (sampleFS true [(".prettierrc", .file true "\x7b\x7d")])).1 (by decide)⟩,
   ⟨_, rfl,
    (create_never_overwrites (sampleEnv none) (sampleFS true [])).2.2.1 _ rfl⟩,
   ⟨_, rfl,
    ((create_never_overwrites (sampleEnv none) (sampleFS true [])).2.2.2 _ rfl).1,
    rfl⟩⟩

/-! ## Objects and the spread of two values -/

theorem getOwn_cons (e : JsString × Json) (rest : Props) (k : JsString) :
    getOwn (e :: rest) k = if e.1 = k then some e.2 else getOwn rest k := by
  cases e
  rfl

theorem getOwn_replace (k : JsString) (v : Json) (k1 : JsString) : ∀ o : Props,
    getOwn (o.map (fun e => if e.1 = k then (e.1, v) else e)) k1
      = if k1 = k then (match getOwn o k with
          | some _ => some v
          | none => none)
        else getOwn o k1 := by
  intro o
  induction o with
  | nil => simp [getOwn]
  | cons e rest ih =>
    obtain ⟨a, b⟩ := e
    simp only [List.map_cons, getOwn_cons, ih]
    by_cases hak : a = k <;> by_cases h1 : k1 = k <;> by_cases h2 : a = k1 <;>
      simp_all

theorem getOwn_append_one (k : JsString) (v : Json) (k1 : JsString) : ∀ o : Props,
    getOwn o k = none →
    getOwn (o ++ [(k, v)]) k1 = if k1 = k then some v else getOwn o k1 := by
  intro o
  induction o with
  | nil =>
    intro _
    by_cases h : k1 = k
    · subst h; simp [getOwn]
    · have h2 : ¬ k = k1 := fun h3 => h h3.symm
      simp [getOwn, h, h2]
  | cons e rest ih =>
    obtain ⟨a, b⟩ := e
    intro hk
    by_cases hak : a = k
    · simp [getOwn, hak] at hk
    · simp only [getOwn, hak, if_false] at hk
      by_cases h1 : a = k1
      · have h2 : ¬ k1 = k := fun h3 => hak (h1.trans h3)
        simp [getOwn, h1, h2]
      · simp [getOwn, h1, ih hk]

theorem getOwn_insertIndexed (i : Nat) (k : JsString) (v : Json) (k1 : JsString) :
    ∀ o : Props, getOwn o k = none →
    getOwn (insertIndexed i k v o) k1 = if k1 = k then some v else getOwn o k1 := by
  intro o
  induction o with
  | nil =>
    intro _
    by_cases h : k1 = k
    · subst h; simp [insertIndexed, getOwn]
    · have h2 : ¬ k = k1 := fun h3 => h h3.symm
      simp [insertIndexed, getOwn, h, h2]
  | cons e rest ih =>
    obtain ⟨a, b⟩ := e
    intro hk
    have hak : ¬ a = k := by
      intro hak
      simp [getOwn, hak] at hk
    simp only [getOwn, hak, if_false] at hk
    have front : getOwn ((k, v) :: (a, b) :: rest) k1
        = if k1 = k then some v else getOwn ((a, b) :: rest) k1 := by
      by_cases h : k1 = k
      · subst h; simp [getOwn]
      · have h2 : ¬ k = k1 := fun h3 => h h3.symm
        simp [getOwn, h, h2]
    simp only [insertIndexed]
    split
    · split
      · by_cases h1 : a = k1
        · have h2 : ¬ k1 = k := fun h3 => hak (h1.trans h3)
          simp [getOwn, h1, h2]
        · simp [getOwn, h1, ih hk]
      · exact front
    · exact front

theorem getOwn_setProp (o : Props) (k : JsString) (v : Json) (k1 : JsString) :
    getOwn (setProp o k v) k1 = if k1 = k then some v else getOwn o k1 := by
  unfold setProp
  cases hk : getOwn o k with
  | some w => simp [getOwn_replace, hk]
  | none =>
    simp only [Option.isSome_none, Bool.false_eq_true, if_false]
    cases arrayIndex k with
    | some i => exact getOwn_insertIndexed i k v k1 o hk
    | none => exact getOwn_append_one k v k1 o hk

theorem getOwn_eq_none (k : JsString) : ∀ o : Props,
    k ∉ o.map Prod.fst → getOwn o k = none := by
  intro o
  induction o with
  | nil => intro _; rfl
  | cons e rest ih =>
    obtain ⟨a, b⟩ := e
    intro h
    simp only [List.map_cons, List.mem_cons, not_or] at h
    have h2 : ¬ a = k := fun h3 => h.1 h3.symm
    simp [getOwn, h2, ih h.2]

theorem getOwn_foldl_copy (src : Props) (k1 : JsString) : ∀ (ks : List JsString) (t : Props),
    getOwn (ks.foldl (fun t k =>
        match getOwn src k with
        | some v => setProp t k v
        | none => t) t) k1
      = if k1 ∈ ks then (match getOwn src k1 with
          | some v => some v
          | none => getOwn t k1)
        else getOwn t k1 := by
  intro ks
  induction ks with
  | nil => intro t; simp
  | cons k ks ih =>
    intro t
    simp only [List.foldl_cons, ih, List.mem_cons]
    by_cases hk : k1 = k
    · subst hk
      cases hs : getOwn src k1 with
      | none => simp
      | some v => simp [getOwn_setProp]
    · cases hs : getOwn src k with
      | none => simp [hk]
      | some v => simp [getOwn_setProp, hk]

theorem getOwn_copyDataProperties (t : Props) (source : Option Json) (k : JsString) :
    getOwn (copyDataProperties t source) k
      = (match getOwn (ownProps source) k with
        | some v => some v
        | none => getOwn t k) := by
  unfold copyDataProperties
  simp only [getOwn_foldl_copy]
  by_cases hm : k ∈ (ownProps source).map Prod.fst
  · simp [hm]
  · have := getOwn_eq_none k (ownProps source) hm
    simp [hm, this]

theorem getOwn_spread2 (a b : Option Json) (k : JsString) :
    getOwn (spread2 a b) k
      = (match getOwn (ownProps b) k with
        | some v => some v
        | none => getOwn (ownProps a) k) := by
  unfold spread2
  rw [getOwn_copyDataProperties, getOwn_copyDataProperties]
  cases getOwn (ownProps b) k <;> cases getOwn (ownProps a) k <;> simp [getOwn]

/-! ## The editor settings -/

theorem pathJoin_settingsJson (base : Path) :
    pathJoin base ["settings.json"] = base ++ ["settings.json"] := by
  simp [pathJoin]

/-- C5, as stated, fails: a settings file that cannot be rewritten.  Both documents
parse to objects, yet `createVSCodeSettings` returns false and leaves the file as it
was. -/
theorem createVSCodeSettings_readonly_counterexample :
    readFileSync
        (sampleFS true [(".vscode", mkDir true [("settings.json", .file false
          "\x7b\"files.autoSave\":\"off\",\"editor.formatOnSave\":false\x7d")])])
        ["proj", ".vscode", "settings.json"]
      = .ok "\x7b\"files.autoSave\":\"off\",\"editor.formatOnSave\":false\x7d"
    ∧ sampleParse "\x7b\"files.autoSave\":\"off\",\"editor.formatOnSave\":false\x7d"
      = .ok (.obj [(js "files.autoSave", .str (js "off")),
          (js "editor.formatOnSave", .bool false)])
    ∧ readFileSync
        (sampleFS true [(".vscode", mkDir true [("settings.json", .file false
          "\x7b\"files.autoSave\":\"off\",\"editor.formatOnSave\":false\x7d")])])
        ["pkg", "templates", "settings.json"]
      = .ok "\x7b\"editor.formatOnSave\":true\x7d"
    ∧ sampleParse "\x7b\"editor.formatOnSave\":true\x7d"
      = .ok (.obj [(js "editor.formatOnSave", .bool true)])
    ∧ createVSCodeSettings (sampleRuntime installsSucceed) (sampleEnv none)
        (sampleFS true [(".vscode", mkDir true [("settings.json", .file false
          "\x7b\"files.autoSave\":\"off\",\"editor.formatOnSave\":false\x7d")])])
      = .ok (false, sampleFS true [(".vscode", mkDir true [("settings.json", .file false
          "\x7b\"files.autoSave\":\"off\",\"editor.formatOnSave\":false\x7d")])]) :=
  ⟨rfl, rfl, rfl, rfl, rfl⟩

/-- C5, amended: when `.vscode/settings.json` is a writable file whose text parses to
an object `E`, and the template parses to an object `T`, `createVSCodeSettings` returns
true and rewrites the file with the printed shallow merge `M` of `T` over `E`: a key of
`T` carries the value of `T`, any other key of `E` keeps the value of `E`, and `M` has
no other key. -/
theorem createVSCodeSettings_merge (rt : Runtime) (env : Env) (fs : FS)
    (sE sT : String) (E T : Props)
    (hE : lookup fs (env.cwd ++ [".vscode", "settings.json"]) = some (.file true sE))
    (hpE : rt.jsonParse sE = .ok (.obj E))
    (hT : readFileSync fs (env.dirname.dropLast ++ ["templates", "settings.json"]) = .ok sT)
    (hpT : rt.jsonParse sT = .ok (.obj T)) :
    ∃ (fs1 : FS) (M : Props),
      createVSCodeSettings rt env fs = .ok (true, fs1)
      ∧ writeFileSync fs (env.cwd ++ [".vscode", "settings.json"]) (rt.jsonStringify (.obj M))
          = .ok fs1
      ∧ readFileSync fs1 (env.cwd ++ [".vscode", "settings.json"])
          = .ok (rt.jsonStringify (.obj M))
      ∧ ∀ k, getOwn M k = (match getOwn T k with
          | some v => some v
          | none => getOwn E k) := by
  have hex : existsSync fs (env.cwd ++ [".vscode", "settings.json"]) = true := by
    simp [existsSync, hE]
  have hdir : existsSync fs (env.cwd ++ [".vscode"]) = true :=
    existsSync_parent fs _ ["settings.json"] (by simpa using hex)
  have hread : readFileSync fs (env.cwd ++ [".vscode", "settings.json"]) = .ok sE := by
    simp [readFileSync, hE]
  obtain ⟨fs1, hw, _⟩ := writeFileSync_writable
    (rt.jsonStringify (.obj (spread2 (some (.obj E)) (some (.obj T)))))
    (env.cwd ++ [".vscode", "settings.json"]) fs sE hE
  refine ⟨fs1, spread2 (some (.obj E)) (some (.obj T)), ?_, hw,
    readFileSync_writeFileSync _ _ _ _ hw, fun k => ?_⟩
  · simp [createVSCodeSettings, pathJoin_vscode, pathJoin_settingsJson,
      pathJoin_template env.dirname "settings.json" (by decide) (by decide) (by decide),
      hdir, hex, hread, hpE, hT, hpT, hw]
  · rw [getOwn_spread2]
    rfl

theorem createVSCodeSettings_merge_witness :
    ∃ (fs1 : FS) (M : Props),
      createVSCodeSettings (sampleRuntime installsSucceed) (sampleEnv none)
          (sampleFS true [(".vscode", mkDir true [("settings.json", .file true
            "\x7b\"files.autoSave\":\"off\",\"editor.formatOnSave\":false\x7d")])])
        = .ok (true, fs1)
      ∧ writeFileSync
          (sampleFS true [(".vscode", mkDir true [("settings.json", .file true
            "\x7b\"files.autoSave\":\"off\",\"editor.formatOnSave\":false\x7d")])])
          ["proj", ".vscode", "settings.json"] (sampleStringify (.obj M)) = .ok fs1
      ∧ readFileSync fs1 ["proj", ".vscode", "settings.json"] = .ok (sampleStringify (.obj M))
      ∧ ∀ k, getOwn M k = (match getOwn [(js "editor.formatOnSave", Json.bool true)] k with
          | some v => some v
          | none => getOwn [(js "files.autoSave", Json.str (js "off")),
              (js "editor.formatOnSave", Json.bool false)] k) :=
  createVSCodeSettings_merge (sampleRuntime installsSucceed) (sampleEnv none)
    (sampleFS true [(".vscode", mkDir true [("settings.json", .file true
      "\x7b\"files.autoSave\":\"off\",\"editor.formatOnSave\":false\x7d")])])
    "\x7b\"files.autoSave\":\"off\",\"editor.formatOnSave\":false\x7d"
    "\x7b\"editor.formatOnSave\":true\x7d"
    [(js "files.autoSave", .str (js "off")), (js "editor.formatOnSave", .bool false)]
    [(js "editor.formatOnSave", .bool true)]
    rfl rfl rfl rfl

theorem createVSCodeSettings_merge_text :
    (createVSCodeSettings (sampleRuntime installsSucceed) (sampleEnv none)
        (sampleFS true [(".vscode", mkDir true [("settings.json", .file true
          "\x7b\"files.autoSave\":\"off\",\"editor.formatOnSave\":false\x7d")])])).toOption.map
      (fun r => (r.1, readFileSync r.2 ["proj", ".vscode", "settings.json"]))
    = some (true,
        .ok "\x7b\n  \"files.autoSave\": \"off\",\n  \"editor.formatOnSave\": true\n\x7d") := by
  rfl

/-! ## The declared dependencies -/

theorem isPrettierInstalled_unreadable (rt : Runtime) (env : Env) (fs : FS) :
    (∀ text, readFileSync fs (env.cwd ++ ["package.json"]) ≠ .ok text) →
    isPrettierInstalled rt env fs = false := by
  intro h
  simp only [isPrettierInstalled, pathJoin_packageJson]
  split
  · rfl
  · next text ht => exact absurd ht (h text)

theorem isPrettierInstalled_malformed (rt : Runtime) (env : Env) (fs : FS) (text : String)
    (e : JsError) (hread : readFileSync fs (env.cwd ++ ["package.json"]) = .ok text)
    (hparse : rt.jsonParse text = .error e) :
    isPrettierInstalled rt env fs = false := by
  simp [isPrettierInstalled, pathJoin_packageJson, hread, hparse]

theorem isPrettierInstalled_object (rt : Runtime) (env : Env) (fs : FS) (text : String)
    (P : Props) (hread : readFileSync fs (env.cwd ++ ["package.json"]) = .ok text)
    (hparse : rt.jsonParse text = .ok (.obj P))
    (h1 : getOwn (ownProps (getOwn P (js "dependencies"))) (js "hasOwnProperty") = none)
    (h2 : getOwn (ownProps (getOwn P (js "devDependencies"))) (js "hasOwnProperty") = none) :
    isPrettierInstalled rt env fs
      = ((getOwn (ownProps (getOwn P (js "dependencies"))) (js "prettier")).isSome
        || (getOwn (ownProps (getOwn P (js "devDependencies"))) (js "prettier")).isSome) := by
  simp only [isPrettierInstalled, pathJoin_packageJson, hread, hparse, getMember,
    callHasOwnProperty, getOwn_spread2, h1, h2]
  cases getOwn (ownProps (getOwn P (js "dependencies"))) (js "prettier") <;>
    cases getOwn (ownProps (getOwn P (js "devDependencies"))) (js "prettier") <;> rfl

/-- C7, where the code departs from it: a `package.json` whose `dependencies` mapping
declares `prettier` and also has a key named `hasOwnProperty`.  The call
`allDeps.hasOwnProperty("prettier")` then finds the JSON value of that key in place of
the method, raises a `TypeError` inside the `try`, and `isPrettierInstalled` returns
false although `prettier` is declared. -/
theorem isPrettierInstalled_hasOwnProperty_key (rt : Runtime) (env : Env) (fs : FS)
    (text : String) (P D : Props) (v p : Json)
    (hread : readFileSync fs (env.cwd ++ ["package.json"]) = .ok text)
    (hparse : rt.jsonParse text = .ok (.obj P))
    (hD : getOwn P (js "dependencies") = some (.obj D))
    (hk : getOwn D (js "hasOwnProperty") = some v)
    (hp : getOwn D (js "prettier") = some p) :
    (getOwn D (js "prettier")).isSome = true ∧ isPrettierInstalled rt env fs = false := by
  refine ⟨by simp [hp], ?_⟩
  have hown : ownProps (some (Json.obj D)) = D := rfl
  simp only [isPrettierInstalled, pathJoin_packageJson, hread, hparse, getMember,
    callHasOwnProperty, getOwn_spread2, hD, hown, hk]
  cases getOwn (ownProps (getOwn P (js "devDependencies"))) (js "hasOwnProperty") <;> rfl

theorem isPrettierInstalled_hasOwnProperty_key_witness :
    isPrettierInstalled (sampleRuntime installsSucceed) (sampleEnv none)
      (sampleFS true [("package.json", .file true
        "\x7b\"dependencies\":\x7b\"hasOwnProperty\":\"1.0.0\",\"prettier\":\"3.3.3\"\x7d\x7d")])
      = false :=
  (isPrettierInstalled_hasOwnProperty_key (sampleRuntime installsSucceed) (sampleEnv none)
    (sampleFS true [("package.json", .file true
      "\x7b\"dependencies\":\x7b\"hasOwnProperty\":\"1.0.0\",\"prettier\":\"3.3.3\"\x7d\x7d")])
    "\x7b\"dependencies\":\x7b\"hasOwnProperty\":\"1.0.0\",\"prettier\":\"3.3.3\"\x7d\x7d"
    [(js "dependencies",
      .obj [(js "hasOwnProperty", .str (js "1.0.0")), (js "prettier", .str (js "3.3.3"))])]
    [(js "hasOwnProperty", .str (js "1.0.0")), (js "prettier", .str (js "3.3.3"))]
    (.str (js "1.0.0")) (.str (js "3.3.3"))
    rfl rfl rfl rfl rfl).2

theorem isPrettierInstalled_devDependencies_run :
    isPrettierInstalled (sampleRuntime installsSucceed) (sampleEnv none)
      (sampleFS true [("package.json", .file true
        "\x7b\"devDependencies\":\x7b\"prettier\":\"3.3.3\"\x7d\x7d")]) = true := by
  decide

/-! ## The orchestrator -/

theorem main_missing (rt : Runtime) (env : Env) (fs : FS)
    (h : existsSync fs (env.cwd ++ ["package.json"]) = false) :
    main rt env fs = (.exited 1, { fs := fs, commands := [] }) := by
  simp [main, checkPackageJson, pathJoin_packageJson, h]

/-- C6: without `package.json` in the working directory, `main` ends at the
precondition check with exit status 1; no command has been run and the file system is
the one the run started with. -/
theorem main_without_package_json (rt : Runtime) (env : Env) (fs : FS)
    (h : existsSync fs (env.cwd ++ ["package.json"]) = false) :
    main rt env fs = (.exited 1, { fs := fs, commands := [] })
    ∧ run rt env fs = (1, { fs := fs, commands := [] }) := by
  have hm := main_missing rt env fs h
  exact ⟨hm, by simp [run, hm, exitStatus]⟩

theorem main_without_package_json_witness :
    existsSync (sampleFS true []) ["proj", "package.json"] = false
    ∧ run (sampleRuntime installsSucceed) (sampleEnv none) (sampleFS true [])
        = (1, { fs := sampleFS true [], commands := [] }) :=
  ⟨by decide,
   (main_without_package_json (sampleRuntime installsSucceed) (sampleEnv none)
      (sampleFS true []) (by decide)).2⟩

/-- C8, where the code departs from it: a working directory that accepts no new entry,
holding `package.json` and a writable `.vscode`.  `createPrettierrc` throws (its write is
outside any `try`), while `createPrettierignore` turns the same failure into false; and
`createVSCodeSettings` throws when it has to create `.vscode`.  In `main` the exception
of `createPrettierrc` ends the run with status 1 before the later steps: the settings
file, which `createVSCodeSettings` would have written, is not created. -/
theorem materializers_can_throw :
    createPrettierrc (sampleEnv none)
        (sampleFS false [("package.json", .file true "\x7b\x7d"), (".vscode", mkDir true [])])
      = .error (.ioError "EACCES")
    ∧ createPrettierignore (sampleEnv none)
        (sampleFS false [("package.json", .file true "\x7b\x7d"), (".vscode", mkDir true [])])
      = .ok (false,
          sampleFS false [("package.json", .file true "\x7b\x7d"), (".vscode", mkDir true [])])
    ∧ createVSCodeSettings (sampleRuntime installsSucceed) (sampleEnv none)
        (sampleFS false [("package.json", .file true "\x7b\x7d")])
      = .error (.ioError "EACCES")
    ∧ main (sampleRuntime installsSucceed) (sampleEnv none)
        (sampleFS false [("package.json", .file true "\x7b\x7d"), (".vscode", mkDir true [])])
      = (.threw (.ioError "EACCES"),
          { fs := sampleFS false
              [("package.json", .file true "\x7b\x7d"), (".vscode", mkDir true [])],
            commands := ["npm install --save-dev --save-exact prettier",
              "npm install --save-dev @dheerajmahra/prettier-config"] })
    ∧ (run (sampleRuntime installsSucceed) (sampleEnv none)
        (sampleFS false [("package.json", .file true "\x7b\x7d"), (".vscode", mkDir true [])])).1
      = 1
    ∧ (createVSCodeSettings (sampleRuntime installsSucceed) (sampleEnv none)
        (sampleFS false [("package.json", .file true "\x7b\x7d"),
          (".vscode", mkDir true [])])).toOption.map Prod.fst = some true
    ∧ existsSync
        (run (sampleRuntime installsSucceed) (sampleEnv none)
          (sampleFS false [("package.json", .file true "\x7b\x7d"),
            (".vscode", mkDir true [])])).2.fs
        ["proj", ".vscode", "settings.json"] = false :=
  ⟨rfl, rfl, rfl, rfl, rfl, rfl, rfl⟩

theorem main_of_package_json (rt : Runtime) (env : Env) (fs : FS)
    (h : existsSync fs (env.cwd ++ ["package.json"]) = true) :
    main rt env fs
      = (if (installPackage rt (detectPackageManager env fs) (prettierStep rt env fs)).1 = false
          then (.exited 1,
            (installPackage rt (detectPackageManager env fs) (prettierStep rt env fs)).2)
        else
          match createPrettierrc env
              (installPackage rt (detectPackageManager env fs) (prettierStep rt env fs)).2.fs with
          | .error e => (.threw e,
              (installPackage rt (detectPackageManager env fs) (prettierStep rt env fs)).2)
          | .ok r3 =>
            match createPrettierignore env r3.2 with
            | .error e => (.threw e, { fs := r3.2, commands :=
                (installPackage rt (detectPackageManager env fs)
                  (prettierStep rt env fs)).2.commands })
            | .ok r4 =>
              match createVSCodeSettings rt env r4.2 with
              | .error e => (.threw e, { fs := r4.2, commands :=
                  (installPackage rt (detectPackageManager env fs)
                    (prettierStep rt env fs)).2.commands })
              | .ok r5 => (.completed, { fs := r5.2, commands :=
                  (installPackage rt (detectPackageManager env fs)
                    (prettierStep rt env fs)).2.commands })) := by
  simp only [main, checkPackageJson, pathJoin_packageJson, h]
  cases (installPackage rt (detectPackageManager env fs) (prettierStep rt env fs)).1 <;> simp

theorem main_outcome_cases (rt : Runtime) (env : Env) (fs : FS)
    (h : existsSync fs (env.cwd ++ ["package.json"]) = true)
    (hi : (installPackage rt (detectPackageManager env fs) (prettierStep rt env fs)).1 = true) :
    (main rt env fs).1 = .completed ∨ ∃ e, (main rt env fs).1 = .threw e := by
  rw [main_of_package_json rt env fs h]
  simp only [hi, Bool.true_eq_false, if_false]
  split
  · exact Or.inr ⟨_, rfl⟩
  · split
    · exact Or.inr ⟨_, rfl⟩
    · split
      · exact Or.inr ⟨_, rfl⟩
      · exact Or.inl rfl

/-- C9: in a run of `main` that no exception leaves, the exit status is 1 exactly when
`package.json` is missing or the shared-config install command fails, and 0 otherwise;
and when `package.json` is present and that command fails, the run ends there with
status 1 in the state the command left, so `main` itself has written no file. -/
theorem main_exit_status (rt : Runtime) (env : Env) (fs : FS)
    (h : ∀ e, (main rt env fs).1 ≠ .threw e) :
    ((run rt env fs).1 = 1 ↔
      (existsSync fs (env.cwd ++ ["package.json"]) = false
        ∨ (installPackage rt (detectPackageManager env fs) (prettierStep rt env fs)).1 = false))
    ∧ (¬ (existsSync fs (env.cwd ++ ["package.json"]) = false
        ∨ (installPackage rt (detectPackageManager env fs) (prettierStep rt env fs)).1 = false)
      → (run rt env fs).1 = 0)
    ∧ (existsSync fs (env.cwd ++ ["package.json"]) = true →
      (installPackage rt (detectPackageManager env fs) (prettierStep rt env fs)).1 = false →
      main rt env fs = (.exited 1,
        (installPackage rt (detectPackageManager env fs) (prettierStep rt env fs)).2)) := by
  have fatal : existsSync fs (env.cwd ++ ["package.json"]) = true →
      (installPackage rt (detectPackageManager env fs) (prettierStep rt env fs)).1 = false →
      main rt env fs = (.exited 1,
        (installPackage rt (detectPackageManager env fs) (prettierStep rt env fs)).2) := by
    intro hp hi
    rw [main_of_package_json rt env fs hp]
    simp [hi]
  have good : existsSync fs (env.cwd ++ ["package.json"]) = true →
      (installPackage rt (detectPackageManager env fs) (prettierStep rt env fs)).1 = true →
      (run rt env fs).1 = 0 := by
    intro hp hi
    rcases main_outcome_cases rt env fs hp hi with hc | ⟨e, he⟩
    · simp [run, hc, exitStatus]
    · exact absurd he (h e)
  refine ⟨⟨fun h1 => ?_, fun hor => ?_⟩, fun hn => ?_, fatal⟩
  · by_contra hcon
    simp only [not_or, Bool.not_eq_false] at hcon
    have := good hcon.1 hcon.2
    omega
  · rcases hor with hm | hi
    · simp [run, main_missing rt env fs hm, exitStatus]
    · cases hp : existsSync fs (env.cwd ++ ["package.json"]) with
      | false => simp [run, main_missing rt env fs hp, exitStatus]
      | true => simp [run, fatal hp hi, exitStatus]
  · simp only [not_or, Bool.not_eq_false] at hn
    exact good hn.1 hn.2

theorem main_exit_status_witness :
    (run (sampleRuntime installsSucceed) (sampleEnv none)
        (sampleFS true [("package.json", .file true "\x7b\x7d"),
          (".prettierrc", .file true "")])).1 = 0
    ∧ (run (sampleRuntime installsFail) (sampleEnv none)
        (sampleFS true [("package.json", .file true "\x7b\x7d")])).1 = 1 :=
  ⟨(main_exit_status (sampleRuntime installsSucceed) (sampleEnv none)
      (sampleFS true [("package.json", .file true "\x7b\x7d"), (".prettierrc", .file true "")])
      (fun e he => Outcome.noConfusion
        ((show (main (sampleRuntime installsSucceed) (sampleEnv none)
          (sampleFS true [("package.json", .file true "\x7b\x7d"),
            (".prettierrc", .file true "")])).1 = Outcome.completed from rfl).symm.trans he))).2.1
      (by decide),
   (main_exit_status (sampleRuntime installsFail) (sampleEnv none)
      (sampleFS true [("package.json", .file true "\x7b\x7d")])
      (fun e he => Outcome.noConfusion
        ((show (main (sampleRuntime installsFail) (sampleEnv none)
          (sampleFS true [("package.json", .file true "\x7b\x7d")])).1
            = Outcome.exited 1 from rfl).symm.trans he))).1.mpr
      (Or.inr (by decide))⟩

/-- C10: in every run that passes the `package.json` check, with `pm` the detected
manager: `execSync` is called on the formatter command of `pm` exactly when
`isPrettierInstalled` is false, from the initial file system, whatever its result; then
`execSync` is called on the shared-config command of `pm`, from the file system `fs1`
the formatter step left.  The commands run are these and no other, in this order; a
failing shared-config command ends the run with status 1 in the state it left, a
succeeding one hands its file system to the three materializers.  The command lines are
the `pnpm` and `yarn` forms for those two names and the `npm` form for `npm` and for any
other value. -/
theorem main_install_policy (rt : Runtime) (env : Env) (fs : FS)
    (h : existsSync fs (env.cwd ++ ["package.json"]) = true) :
    (∃ (pm : String) (fs1 : FS) (r : Bool × FS) (trace : List String),
      pm = detectPackageManager env fs
      ∧ fs1 = (if isPrettierInstalled rt env fs = true then fs
          else (rt.execSync (installPrettierCommand pm) fs).2)
      ∧ r = rt.execSync (installPackageCommand pm) fs1
      ∧ trace = (if isPrettierInstalled rt env fs = true then []
          else [installPrettierCommand pm]) ++ [installPackageCommand pm]
      ∧ (main rt env fs).2.commands = trace
      ∧ main rt env fs
        = (if r.1 = false then (.exited 1, { fs := r.2, commands := trace })
          else
            match createPrettierrc env r.2 with
            | .error e => (.threw e, { fs := r.2, commands := trace })
            | .ok r3 =>
              match createPrettierignore env r3.2 with
              | .error e => (.threw e, { fs := r3.2, commands := trace })
              | .ok r4 =>
                match createVSCodeSettings rt env r4.2 with
                | .error e => (.threw e, { fs := r4.2, commands := trace })
                | .ok r5 => (.completed, { fs := r5.2, commands := trace })))
    ∧ installPrettierCommand "pnpm" = "pnpm add --save-dev --save-exact prettier"
    ∧ installPackageCommand "pnpm" = "pnpm add -D @dheerajmahra/prettier-config"
    ∧ installPrettierCommand "yarn" = "yarn add --dev --exact prettier"
    ∧ installPackageCommand "yarn" = "yarn add -D @dheerajmahra/prettier-config"
    ∧ (∀ pm : String, pm ≠ "pnpm" → pm ≠ "yarn" →
        installPrettierCommand pm = "npm install --save-dev --save-exact prettier"
        ∧ installPackageCommand pm = "npm install --save-dev @dheerajmahra/prettier-config") := by
  refine ⟨⟨_, _, _, _, rfl, rfl, rfl, rfl, ?_, ?_⟩,
    by decide, by decide, by decide, by decide, fun pm h1 h2 => ?_⟩
  · have hc : (main rt env fs).2.commands
        = (installPackage rt (detectPackageManager env fs) (prettierStep rt env fs)).2.commands := by
      rw [main_of_package_json rt env fs h]
      split
      · rfl
      · split
        · rfl
        · split
          · rfl
          · split <;> rfl
    rw [hc]
    cases hi : isPrettierInstalled rt env fs <;>
      simp [installPackage, prettierStep, installPrettier, hi]
  · rw [main_of_package_json rt env fs h]
    cases hi : isPrettierInstalled rt env fs <;>
      simp [installPackage, prettierStep, installPrettier, hi]
  · constructor
    · simp [installPrettierCommand, h1, h2]
    · simp only [installPackageCommand, h1, h2, if_false]
      decide

theorem main_install_policy_witness :
    existsSync (sampleFS true [("package.json", .file true "\x7b\x7d"),
        ("pnpm-lock.yaml", .file true "")]) ["proj", "package.json"] = true
    ∧ (main (sampleRuntime installsLogged) (sampleEnv none)
        (sampleFS true [("package.json", .file true "\x7b\x7d"),
          ("pnpm-lock.yaml", .file true "")])).2.commands
      = ["pnpm add --save-dev --save-exact prettier",
         "pnpm add -D @dheerajmahra/prettier-config"]
    ∧ readFileSync
        (main (sampleRuntime installsLogged) (sampleEnv none)
          (sampleFS true [("package.json", .file true "\x7b\x7d"),
            ("pnpm-lock.yaml", .file true "")])).2.fs ["proj", "install.log"]
      = .ok ("pnpm add --save-dev --save-exact prettier\n"
          ++ "pnpm add -D @dheerajmahra/prettier-config\n")
    ∧ readFileSync
        (main (sampleRuntime installsLogged)
          (sampleEnv (some "yarn/1.22.19 npm/? node/v18.17.0"))
          (sampleFS true [("package.json", .file true
            "\x7b\"devDependencies\":\x7b\"prettier\":\"3.3.3\"\x7d\x7d")])).2.fs
        ["proj", "install.log"]
      = .ok "yarn add -D @dheerajmahra/prettier-config\n" := by
  refine ⟨by decide, ?_, ?_, ?_⟩
  · obtain ⟨⟨pm, fs1, r, trace, hpm, _, _, ht, hc, _⟩, _⟩ :=
      main_install_policy (sampleRuntime installsLogged) (sampleEnv none)
        (sampleFS true [("package.json", .file true "\x7b\x7d"),
          ("pnpm-lock.yaml", .file true "")]) (by decide)
    rw [hc, ht, hpm]
    decide
  · obtain ⟨⟨pm, fs1, r, trace, hpm, hfs1, hr, _, _, hm⟩, _⟩ :=
      main_install_policy (sampleRuntime installsLogged) (sampleEnv none)
        (sampleFS true [("package.json", .file true "\x7b\x7d"),
          ("pnpm-lock.yaml", .file true "")]) (by decide)
    rw [hm, hr, hfs1, hpm]
    rfl
  · obtain ⟨⟨pm, fs1, r, trace, hpm, hfs1, hr, _, _, hm⟩, _⟩ :=
      main_install_policy (sampleRuntime installsLogged)
        (sampleEnv (some "yarn/1.22.19 npm/? node/v18.17.0"))
        (sampleFS true [("package.json", .file true
          "\x7b\"devDependencies\":\x7b\"prettier\":\"3.3.3\"\x7d\x7d")]) (by decide)
    rw [hm, hr, hfs1, hpm]
    rfl

end PrettierConfig
